import Mathlib

/-
  Verification development for the sitemap2pdf repository (src/index.ts).

  The program is a one-shot batch pipeline: it resolves a sitemap URL into a
  list of page URLs (recursively through sitemap indexes), renders each page,
  extracts the main content, and writes one Markdown file per page.

  Shallow embedding notes:
  - Parsed XML documents (the result of the external `parseXml` collaborator)
    are modelled as JavaScript-like values `JsVal`; property access and
    truthiness follow JavaScript semantics for the value shapes the program
    actually handles (undefined, string, object, array).
  - The external collaborators (HTTP fetch, XML parse, the headless renderer,
    content extraction) are modelled as environment functions supplied as
    parameters.
  - `fetchSitemapUrls` in the source is recursive with no depth bound; the
    embedding adds an explicit fuel parameter (`Nat`): at fuel `n + 1` the
    body of the source function runs once and recursive calls use fuel `n`.
    Fuel 0 returns the empty result; all theorems are stated at `n + 1`.
  - Console output is modelled as an explicit `LogEntry` trace where a claim
    depends on it (the resolver's `console.log` / `console.error` calls).
  - Exceptions are modelled with `Except`: the source's try/catch in
    `fetchSitemapUrls` appears as `fetchSitemapTry` (the try block, whose
    `Except.error` is a thrown message) wrapped by `fetchSitemapUrls`
    (the catch handler).
-/

set_option autoImplicit false

namespace Sitemap2Pdf

/-- JavaScript-like values, as produced by the XML parse collaborator and
inspected by `fetchSitemapUrls` (src/index.ts lines 14-52): `undefined`
(missing properties), strings, objects with string keys, and arrays. -/
inductive JsVal where
  | undefV
  | strV (s : String)
  | objV (fields : List (String × JsVal))
  | arrV (elems : List JsVal)
deriving Repr

/-- First binding of a key in an object's field list; missing keys are
`undefined`, as in JavaScript property access. -/
def lookupField : List (String × JsVal) → String → JsVal
  | [], _ => .undefV
  | (k', v) :: fs, k => if k' = k then v else lookupField fs k

/-- JavaScript property access `v[k]` for the receiver shapes the program
reads: objects yield the field (or `undefined`), and property access on a
string or an array for the keys used here (`urlset`, `url`, `sitemapindex`,
`sitemap`, `loc`, `#text`) yields `undefined`. -/
def getField : JsVal → String → JsVal
  | .objV fs, k => lookupField fs k
  | _, _ => .undefV

/-- JavaScript truthiness for the modelled values: `undefined` and the empty
string are falsy; every object and array (even empty ones) is truthy. -/
def truthy : JsVal → Bool
  | .undefV => false
  | .strV s => s != ""
  | .objV _ => true
  | .arrV _ => true

/-- Models `typeof v === 'string'`. -/
def isStr : JsVal → Bool
  | .strV _ => true
  | _ => false

/-- The underlying string of a string value (only read under `isStr`). -/
def asStr : JsVal → String
  | .strV s => s
  | _ => ""

/-- Models `Array.isArray(v) ? v : [v]` (src/index.ts lines 23-25 and 43). -/
def toArray : JsVal → List JsVal
  | .arrV xs => xs
  | v => [v]

/-- The dual-form location check shared by the urlset branch (lines 46-51)
and the sitemapindex branch (lines 28-34): `u.loc && typeof u.loc ===
'string'` yields the bare string, else `u.loc && typeof u.loc['#text'] ===
'string'` yields the text of the object form, else the entry is skipped. -/
def extractLoc (u : JsVal) : Option String :=
  if truthy (getField u "loc") && isStr (getField u "loc") then
    some (asStr (getField u "loc"))
  else if truthy (getField u "loc") && isStr (getField (getField u "loc") "#text") then
    some (asStr (getField (getField u "loc") "#text"))
  else none

/-- The location string of an entry (defaulting to `""`; only used on
entries whose location the program recognizes). -/
def locValue (u : JsVal) : String :=
  (extractLoc u).getD ""

/-- An entry whose location the program recognizes: a non-empty bare string
(the empty string is falsy, so `u.loc &&` rejects it), or an object whose
`#text` field is a string. -/
def locRecognized (u : JsVal) : Prop :=
  (∃ s, s ≠ "" ∧ getField u "loc" = .strV s) ∨
  (∃ fs, getField u "loc" = .objV fs ∧ ∃ s, getField (getField u "loc") "#text" = .strV s)

/-- An entry whose location is syntactically in bare-string or object form,
as the specification words it (this includes the empty bare string). -/
def locStringOrObjectForm (u : JsVal) : Prop :=
  (∃ s, getField u "loc" = .strV s) ∨
  (∃ fs, getField u "loc" = .objV fs ∧ ∃ s, getField (getField u "loc") "#text" = .strV s)

/-- Outcome of fetching and parsing one sitemap URL: a non-OK HTTP response
(line 10, throws `Failed to fetch sitemap: <statusText>`), an XML parse
failure (line 14, `parseXml` throws), or a parsed document. -/
inductive FetchOutcome where
  | httpError (statusText : String)
  | parseError (msg : String)
  | parsed (doc : JsVal)

/-- The network/parse environment: what fetching and parsing each URL
yields. -/
def SitemapEnv : Type := String → FetchOutcome

/-- Console trace entries: `console.log` and `console.error` lines. -/
inductive LogEntry where
  | infoLog (s : String)
  | errorLog (s : String)
deriving DecidableEq, Repr

/-- The sitemapindex loop (lines 26-35): for each entry with a recognized
location, recursively resolve it (through `rec`) and append the nested URLs
in entry order; entries without a recognized location are skipped. -/
def resolveChildren (rec : String → List String × List LogEntry) :
    List JsVal → List String × List LogEntry
  | [] => ([], [])
  | sm :: rest =>
    match extractLoc sm with
    | some loc =>
      ((rec loc).1 ++ (resolveChildren rec rest).1,
       (rec loc).2 ++ (resolveChildren rec rest).2)
    | none => resolveChildren rec rest

/-- The try block of `fetchSitemapUrls` (lines 7-52). `rec` is the recursive
call used for nested sitemaps. Returns the try block's value (`Except.error`
is a thrown message, caught by the wrapper) together with the console trace
produced inside the block. -/
def fetchSitemapTry (env : SitemapEnv) (rec : String → List String × List LogEntry)
    (url : String) : Except String (List String) × List LogEntry :=
  let fetchLog : List LogEntry := [.infoLog ("Fetching sitemap: " ++ url)]
  match env url with
  | .httpError st => (.error ("Failed to fetch sitemap: " ++ st), fetchLog)
  | .parseError m => (.error m, fetchLog)
  | .parsed doc =>
    let urlset := getField doc "urlset"
    if !truthy urlset || !truthy (getField urlset "url") then
      let sitemapindex := getField doc "sitemapindex"
      if truthy sitemapindex && truthy (getField sitemapindex "sitemap") then
        let sitemaps := toArray (getField sitemapindex "sitemap")
        let res := resolveChildren rec sitemaps
        (.ok res.1, fetchLog ++ res.2)
      else
        (.error "Invalid sitemap format. No <urlset> or <sitemapindex> found.", fetchLog)
    else
      let urls := toArray (getField urlset "url")
      (.ok ((urls.map extractLoc).filterMap id), fetchLog)

/-- `fetchSitemapUrls` (lines 6-59): runs the try block and catches any
thrown error, logging `Error fetching or parsing sitemap: <msg>` and
returning the empty list (lines 53-58). The extra fuel argument bounds the
recursion depth of the embedding; fuel `n + 1` runs the source body once
with recursive calls at fuel `n`. -/
def fetchSitemapUrls (env : SitemapEnv) : Nat → String → List String × List LogEntry
  | 0, _ => ([], [])
  | n + 1, url =>
    match fetchSitemapTry env (fetchSitemapUrls env n) url with
    | (.ok us, logs) => (us, logs)
    | (.error m, logs) =>
      ([], logs ++ [.errorLog ("Error fetching or parsing sitemap: " ++ m)])

/-- Models the regex strip `url.replace(/^https?:\/\//, '')` (line 81):
remove one leading `http://` or `https://`. -/
def stripScheme : List Char → List Char
  | 'h' :: 't' :: 't' :: 'p' :: 's' :: ':' :: '/' :: '/' :: rest => rest
  | 'h' :: 't' :: 't' :: 'p' :: ':' :: '/' :: '/' :: rest => rest
  | cs => cs

/-- Models `.replace('.', '_')` (line 82): a string-literal pattern in
JavaScript `String.prototype.replace` replaces only the first occurrence,
here the first `.` with `_`. -/
def replaceFirstDot : List Char → List Char
  | [] => []
  | c :: cs => if c = '.' then '_' :: cs else c :: replaceFirstDot cs

/-- The character class `[a-zA-Z0-9_.-]` kept by the regex filter
`.replace(/[^a-zA-Z0-9_.-]/g, '')` (lines 82-85). -/
def isAllowedChar (c : Char) : Bool :=
  decide (('a' ≤ c ∧ c ≤ 'z') ∨ ('A' ≤ c ∧ c ≤ 'Z') ∨ ('0' ≤ c ∧ c ≤ '9') ∨
    c = '_' ∨ c = '.' ∨ c = '-')

/-- The character-level processing chain of `sanitizeUrlToFileName`
(lines 81-94): strip the scheme, replace every `/` with `_`, replace the
first `.` with `_`, drop disallowed characters, truncate to 100 characters,
and drop one trailing `.` or `_` when the length exceeds 1. -/
def sanitizeCore (url : String) : List Char :=
  let cs0 := stripScheme url.data
  let cs1 := cs0.map (fun c => if c = '/' then '_' else c)
  let cs2 := replaceFirstDot cs1
  let cs3 := cs2.filter isAllowedChar
  let cs4 := if cs3.length > 100 then cs3.take 100 else cs3
  if cs4.length > 1 ∧ (cs4.getLast? = some '.' ∨ cs4.getLast? = some '_') then
    cs4.dropLast
  else cs4

/-- `sanitizeUrlToFileName` (lines 80-100): run the processing chain; if the
result is empty return `'default_page_name'` (line 97, with no extension),
otherwise append `'.md'` (line 99). -/
def sanitizeUrlToFileName (url : String) : String :=
  let cs := sanitizeCore url
  if cs = [] then "default_page_name" else String.mk cs ++ ".md"

/-- Whether a string ends in the Markdown extension `.md`. -/
def endsInMd (s : String) : Bool :=
  decide (s.data.drop (s.data.length - 3) = ['.', 'm', 'd'])

/-- Outcome of the renderer collaborator for one page URL: `newPage` itself
rejects (before the try block of lines 66-77 is entered), navigation or
content capture fails inside the try block (navigation error or timeout), or
rendering succeeds with the given HTML. -/
inductive RenderOutcome where
  | newPageFail (msg : String)
  | navFail (msg : String)
  | rendered (html : String)

/-- The renderer environment: what the headless browser does for each URL. -/
def RenderEnv : Type := String → RenderOutcome

/-- Result of `fetchPageHtml`: the value it produces (`Except.error` is an
exception escaping to the caller; `Except.ok none` is the caught-failure
`null` return; `Except.ok (some html)` is success) together with whether
`browser.close()` ran on that path. -/
structure PageFetchResult where
  result : Except String (Option String)
  browserClosed : Bool
deriving Repr

/-- `fetchPageHtml` (lines 61-78): launch the browser, then `browser.newPage()`
OUTSIDE the try block (line 65) — if it rejects, the `finally` of lines 75-77
never runs, so the browser is not closed and the error escapes. Inside the
try block, a navigation error or timeout is caught (lines 70-74) and `null`
is returned with the browser closed by the `finally`; on success the HTML is
returned, browser closed likewise. -/
def fetchPageHtml (env : RenderEnv) (pageUrl : String) : PageFetchResult :=
  match env pageUrl with
  | .newPageFail m => { result := .error m, browserClosed := false }
  | .navFail _ => { result := .ok none, browserClosed := true }
  | .rendered html => { result := .ok (some html), browserClosed := true }

/-- JavaScript array destructuring `const [index, pageUrl] = u` applied to an
iterable value `u` that is a string (line 125 iterates `urls`, an array of
strings, so each element destructures character-wise): `index` receives the
first character, `pageUrl` the second, each `undefined` (`none`) when the
string is too short. -/
def jsForOfDestructure2 (s : String) : Option String × Option String :=
  match s.data with
  | [] => (none, none)
  | [c] => (some (String.mk [c]), none)
  | c1 :: c2 :: _ => (some (String.mk [c1]), some (String.mk [c2]))

/-- The sequence of `pageUrl` values the main loop's iterations receive
(line 125: `for (const [index, pageUrl] of urls)`). -/
def mainLoopItems (urls : List String) : List (Option String) :=
  urls.map (fun u => (jsForOfDestructure2 u).2)

/-- The body of the main loop over its iteration values (lines 126-141), and
the final `'All processing finished.'` reached when the loop exhausts
(line 143). `md` composes the opaque extraction collaborators
`toMarkdown(extract(html, { charThreshold: 100 }).root)` (lines 135-136).
Result: `Except.ok files` is normal completion with the `(path, markdown)`
writes in iteration order; `Except.error` is an uncaught exception aborting
the run (an undefined `pageUrl` makes `sanitizeUrlToFileName` throw, and a
`fetchPageHtml` exception propagates since the loop has no try/catch).
A `null` HTML result is skipped with `continue` (lines 130-133). -/
def runLoopOpt (env : RenderEnv) (md : String → String) :
    List (Option String) → Except String (List (String × String))
  | [] => .ok []
  | none :: _ => .error "TypeError: pageUrl is undefined"
  | some pageUrl :: rest =>
    match fetchPageHtml env pageUrl with
    | { result := .error m, browserClosed := _ } => .error m
    | { result := .ok none, browserClosed := _ } => runLoopOpt env md rest
    | { result := .ok (some html), browserClosed := _ } =>
      match runLoopOpt env md rest with
      | .ok files => .ok (("docs/" ++ sanitizeUrlToFileName pageUrl, md html) :: files)
      | .error m => .error m

/-- Overall outcome of `main`: usage printed and `Deno.exit(code)` before any
network activity; `'No URLs found'` early return; or the loop ran with the
given outcome. -/
inductive MainResult where
  | usage (code : Nat)
  | noUrls
  | ran (r : Except String (List (String × String)))

/-- `main` (lines 102-144): with no arguments print usage and exit 1 (lines
103-109, before any fetch — the log trace stays empty); otherwise resolve
the first argument's sitemap (extra arguments are ignored), return early
when no URLs were found (lines 115-120), else run the page loop over the
destructured iteration values of line 125. The returned trace is the
resolver's console output (usage and per-page prints are not traced). -/
def mainModel (env : SitemapEnv) (penv : RenderEnv) (md : String → String)
    (fuel : Nat) (args : List String) : MainResult × List LogEntry :=
  match args with
  | [] => (.usage 1, [])
  | a :: _ =>
    let r := fetchSitemapUrls env fuel a
    if r.1.length = 0 then (.noUrls, r.2)
    else (.ran (runLoopOpt penv md (mainLoopItems r.1)), r.2)

/-- A sitemap node on which `fetchSitemapUrls` fails: HTTP non-success, XML
parse failure, or a parsed document matching neither recognized shape. -/
def nodeFails (env : SitemapEnv) (url : String) : Prop :=
  (∃ st, env url = .httpError st) ∨ (∃ m, env url = .parseError m) ∨
  (∃ doc, env url = .parsed doc ∧
    (!truthy (getField doc "urlset") || !truthy (getField (getField doc "urlset") "url")) = true ∧
    (truthy (getField doc "sitemapindex") &&
      truthy (getField (getField doc "sitemapindex") "sitemap")) = false)

lemma fetchSitemapUrls_succ (env : SitemapEnv) (n : Nat) (url : String) :
    fetchSitemapUrls env (n + 1) url =
      match fetchSitemapTry env (fetchSitemapUrls env n) url with
      | (.ok us, logs) => (us, logs)
      | (.error m, logs) =>
        ([], logs ++ [.errorLog ("Error fetching or parsing sitemap: " ++ m)]) := rfl

lemma fetchSitemapTry_httpError {env : SitemapEnv} {url st : String}
    (rec : String → List String × List LogEntry) (h : env url = .httpError st) :
    fetchSitemapTry env rec url =
      (.error ("Failed to fetch sitemap: " ++ st),
       [.infoLog ("Fetching sitemap: " ++ url)]) := by
  unfold fetchSitemapTry; rw [h]

lemma fetchSitemapTry_parseError {env : SitemapEnv} {url m : String}
    (rec : String → List String × List LogEntry) (h : env url = .parseError m) :
    fetchSitemapTry env rec url =
      (.error m, [.infoLog ("Fetching sitemap: " ++ url)]) := by
  unfold fetchSitemapTry; rw [h]

lemma fetchSitemapTry_urlset {env : SitemapEnv} {url : String} {doc : JsVal}
    (rec : String → List String × List LogEntry) (h : env url = .parsed doc)
    (hg : (!truthy (getField doc "urlset") ||
      !truthy (getField (getField doc "urlset") "url")) = false) :
    fetchSitemapTry env rec url =
      (.ok (((toArray (getField (getField doc "urlset") "url")).map extractLoc).filterMap id),
       [.infoLog ("Fetching sitemap: " ++ url)]) := by
  unfold fetchSitemapTry; rw [h]; simp [hg]

lemma fetchSitemapTry_index {env : SitemapEnv} {url : String} {doc : JsVal}
    (rec : String → List String × List LogEntry) (h : env url = .parsed doc)
    (hg : (!truthy (getField doc "urlset") ||
      !truthy (getField (getField doc "urlset") "url")) = true)
    (hi : (truthy (getField doc "sitemapindex") &&
      truthy (getField (getField doc "sitemapindex") "sitemap")) = true) :
    fetchSitemapTry env rec url =
      (.ok (resolveChildren rec (toArray (getField (getField doc "sitemapindex") "sitemap"))).1,
       [.infoLog ("Fetching sitemap: " ++ url)] ++
         (resolveChildren rec (toArray (getField (getField doc "sitemapindex") "sitemap"))).2) := by
  unfold fetchSitemapTry; rw [h]; simp [hg, hi]

lemma fetchSitemapTry_invalid {env : SitemapEnv} {url : String} {doc : JsVal}
    (rec : String → List String × List LogEntry) (h : env url = .parsed doc)
    (hg : (!truthy (getField doc "urlset") ||
      !truthy (getField (getField doc "urlset") "url")) = true)
    (hi : (truthy (getField doc "sitemapindex") &&
      truthy (getField (getField doc "sitemapindex") "sitemap")) = false) :
    fetchSitemapTry env rec url =
      (.error "Invalid sitemap format. No <urlset> or <sitemapindex> found.",
       [.infoLog ("Fetching sitemap: " ++ url)]) := by
  unfold fetchSitemapTry; rw [h]; simp [hg, hi]

lemma fetchSitemapUrls_httpError {env : SitemapEnv} {url st : String} (n : Nat)
    (h : env url = .httpError st) :
    fetchSitemapUrls env (n + 1) url =
      ([], [.infoLog ("Fetching sitemap: " ++ url),
            .errorLog ("Error fetching or parsing sitemap: Failed to fetch sitemap: " ++ st)]) := by
  rw [fetchSitemapUrls_succ, fetchSitemapTry_httpError _ h]; rfl

lemma fetchSitemapUrls_parseError {env : SitemapEnv} {url m : String} (n : Nat)
    (h : env url = .parseError m) :
    fetchSitemapUrls env (n + 1) url =
      ([], [.infoLog ("Fetching sitemap: " ++ url),
            .errorLog ("Error fetching or parsing sitemap: " ++ m)]) := by
  rw [fetchSitemapUrls_succ, fetchSitemapTry_parseError _ h]; rfl

lemma fetchSitemapUrls_invalid {env : SitemapEnv} {url : String} {doc : JsVal} (n : Nat)
    (h : env url = .parsed doc)
    (hg : (!truthy (getField doc "urlset") ||
      !truthy (getField (getField doc "urlset") "url")) = true)
    (hi : (truthy (getField doc "sitemapindex") &&
      truthy (getField (getField doc "sitemapindex") "sitemap")) = false) :
    fetchSitemapUrls env (n + 1) url =
      ([], [.infoLog ("Fetching sitemap: " ++ url),
            .errorLog "Error fetching or parsing sitemap: Invalid sitemap format. No <urlset> or <sitemapindex> found."]) := by
  rw [fetchSitemapUrls_succ, fetchSitemapTry_invalid _ h hg hi]; rfl

lemma nodeFails_urls_nil {env : SitemapEnv} {url : String} (h : nodeFails env url)
    (n : Nat) : (fetchSitemapUrls env n url).1 = [] := by
  cases n with
  | zero => rfl
  | succ n =>
    rcases h with ⟨st, h⟩ | ⟨m, h⟩ | ⟨doc, h, hg, hi⟩
    · rw [fetchSitemapUrls_httpError n h]
    · rw [fetchSitemapUrls_parseError n h]
    · rw [fetchSitemapUrls_invalid n h hg hi]

lemma extractLoc_of_recognized {u : JsVal} (h : locRecognized u) :
    extractLoc u = some (locValue u) := by
  rcases h with ⟨s, hs, hloc⟩ | ⟨fs, hloc, s, htext⟩
  · have he : extractLoc u = some s := by
      simp [extractLoc, hloc, truthy, isStr, asStr, hs]
    rw [he, locValue, he]; rfl
  . have htext' : getField (JsVal.objV fs) "#text" = .strV s := by
      rw [← hloc]; exact htext
    have he : extractLoc u = some s := by
      simp [extractLoc, hloc, htext', truthy, isStr, asStr]
    rw [he, locValue, he]; rfl

lemma filterMap_extractLoc_eq_map {l : List JsVal} (h : ∀ u ∈ l, locRecognized u) :
    l.filterMap extractLoc = l.map locValue := by
  induction l with
  | nil => rfl
  | cons a t ih =>
    simp [List.filterMap_cons, extractLoc_of_recognized (h a (List.mem_cons_self a t)),
      ih (fun u hu => h u (List.mem_cons_of_mem a hu))]

lemma map_extractLoc_filterMap_id (l : List JsVal) :
    (l.map extractLoc).filterMap id = l.filterMap extractLoc := by
  rw [List.filterMap_map]; rfl

lemma resolveChildren_fst (rec : String → List String × List LogEntry)
    (entries : List JsVal) :
    (resolveChildren rec entries).1 =
      (entries.filterMap extractLoc).flatMap (fun loc => (rec loc).1) := by
  induction entries with
  | nil => rfl
  | cons sm rest ih =>
    cases hsm : extractLoc sm <;>
      simp [resolveChildren, List.filterMap_cons, hsm, ih]

/- Concrete documents and environments used by witnesses and
counterexamples. -/

/-- A urlset document with two entries: a bare-string location and an
object-form location. -/
def dualFormDoc : JsVal := .objV [("urlset", .objV [("url", .arrV [
  .objV [("loc", .strV "https://example.com/p1")],
  .objV [("loc", .objV [("#text", .strV "https://example.com/p2")])]])])]

def dualFormEnv : SitemapEnv := fun _ => .parsed dualFormDoc

/-- A urlset entry whose location is the empty bare string. -/
def emptyLocEntry : JsVal := .objV [("loc", .strV "")]

/-- A urlset document with exactly one entry, whose location is the empty
bare string. -/
def emptyLocDoc : JsVal := .objV [("urlset", .objV [("url", .arrV [emptyLocEntry])])]

def emptyLocEnv : SitemapEnv := fun _ => .parsed emptyLocDoc

/-- A child sitemap holding one page URL `u1` (single non-array entry). -/
def childDocA : JsVal := .objV [("urlset", .objV [("url", .objV [("loc", .strV "u1")])])]

/-- A child sitemap holding one page URL `u2`. -/
def childDocB : JsVal := .objV [("urlset", .objV [("url", .objV [("loc", .strV "u2")])])]

/-- A sitemap index whose second entry's location is the empty bare
string. -/
def idxEmptyLocDoc : JsVal := .objV [("sitemapindex", .objV [("sitemap", .arrV [
  .objV [("loc", .strV "https://a")],
  .objV [("loc", .strV "")]])])]

def idxEmptyLocEnv : SitemapEnv := fun u =>
  if u = "https://root" then .parsed idxEmptyLocDoc
  else if u = "https://a" then .parsed childDocA
  else if u = "" then .parsed childDocB
  else .httpError "404"

/-- The spec's end-to-end scenario: a sitemap index with two children, the
first a urlset of three page URLs, the second failing to fetch. -/
def e2eDocIdx : JsVal := .objV [("sitemapindex", .objV [("sitemap", .arrV [
  .objV [("loc", .strV "https://child1")],
  .objV [("loc", .strV "https://child2")]])])]

def e2eChild1 : JsVal := .objV [("urlset", .objV [("url", .arrV [
  .objV [("loc", .strV "https://example.com/a")],
  .objV [("loc", .strV "https://example.com/b")],
  .objV [("loc", .strV "https://example.com/c")]])])]

def e2eEnv : SitemapEnv := fun u =>
  if u = "https://root/sitemap.xml" then .parsed e2eDocIdx
  else if u = "https://child1" then .parsed e2eChild1
  else .httpError "503"

def httpFailEnv : SitemapEnv := fun _ => .httpError "500 Internal Server Error"

def parseFailEnv : SitemapEnv := fun _ => .parseError "UnexpectedEof"

/-- A parsed document matching neither recognized root shape. -/
def badShapeDoc : JsVal := .objV [("rss", .objV [("channel", .strV "x")])]

def badShapeEnv : SitemapEnv := fun _ => .parsed badShapeDoc

/-- A urlset root that is present (truthy) but has no `url` entries. -/
def urlsetNoEntriesDoc : JsVal := .objV [("urlset", .objV [("lastmod", .strV "2024-01-01")])]

def urlsetNoEntriesEnv : SitemapEnv := fun _ => .parsed urlsetNoEntriesDoc

/- Claim C5 (corrected). -/

/-- C5 counterexample: a well-formed urlset document with one entry whose
location is in bare-string form (the empty string) yields zero URLs, not
one — `u.loc &&` is falsy on `''`, so the entry is dropped even though it
is in bare-string form. -/
theorem urlset_empty_string_loc_dropped :
    getField emptyLocEntry "loc" = .strV "" ∧
    toArray (getField (getField emptyLocDoc "urlset") "url") = [emptyLocEntry] ∧
    (fetchSitemapUrls emptyLocEnv 1 "https://s/sitemap.xml").1 = [] :=
  ⟨rfl, rfl, rfl⟩

/-- C5 (amended): for a parsed document passing the urlset guard, the
resolver returns, in document order, the locations of exactly those entries
the dual-form check accepts; when every entry's location is a non-empty
bare string or an object carrying a string under `#text`, that is exactly
one URL per entry, in document order (entries of neither form — including
empty bare strings — are dropped, the rest keep their order). -/
theorem fetchSitemapUrls_urlset_order (env : SitemapEnv) (n : Nat) (url : String)
    (doc : JsVal) (h1 : env url = .parsed doc)
    (h2 : (!truthy (getField doc "urlset") ||
      !truthy (getField (getField doc "urlset") "url")) = false) :
    ((fetchSitemapUrls env (n + 1) url).1 =
      (toArray (getField (getField doc "urlset") "url")).filterMap extractLoc) ∧
    ((∀ u ∈ toArray (getField (getField doc "urlset") "url"), locRecognized u) →
      (fetchSitemapUrls env (n + 1) url).1 =
        (toArray (getField (getField doc "urlset") "url")).map locValue ∧
      (fetchSitemapUrls env (n + 1) url).1.length =
        (toArray (getField (getField doc "urlset") "url")).length) := by
  have hbase : (fetchSitemapUrls env (n + 1) url).1 =
      (toArray (getField (getField doc "urlset") "url")).filterMap extractLoc := by
    rw [fetchSitemapUrls_succ, fetchSitemapTry_urlset _ h1 h2]
    exact map_extractLoc_filterMap_id _
  refine ⟨hbase, fun hrec => ?_⟩
  have hmap := filterMap_extractLoc_eq_map hrec
  refine ⟨hbase.trans hmap, ?_⟩
  rw [hbase, hmap, List.length_map]

/-- C5 witness: on a two-entry urlset using both location forms, the
resolver returns both URLs in document order. -/
theorem fetchSitemapUrls_urlset_order_witness :
    (fetchSitemapUrls dualFormEnv 1 "https://s/sitemap.xml").1 =
      ["https://example.com/p1", "https://example.com/p2"] := by
  have h := (fetchSitemapUrls_urlset_order dualFormEnv 0 "https://s/sitemap.xml"
      dualFormDoc rfl rfl).2 ?_
  · exact h.1.trans (by decide)
  · intro u hu
    have : u = JsVal.objV [("loc", .strV "https://example.com/p1")] ∨
        u = JsVal.objV [("loc", .objV [("#text", .strV "https://example.com/p2")])] := by
      simpa [dualFormDoc, toArray, getField, lookupField] using hu
    rcases this with rfl | rfl
    · exact Or.inl ⟨"https://example.com/p1", by decide, rfl⟩
    · exact Or.inr ⟨[("#text", .strV "https://example.com/p2")], rfl,
        "https://example.com/p2", rfl⟩

/- Claim C4 (corrected). -/

/-- C4 counterexample: in a sitemap index whose entries are all in
bare-string location form, an entry whose location is the empty string is
skipped outright — its sitemap (here resolving to `[u2]`) is never
recursed into — so the result is not the concatenation of the recursive
resolutions of all the children. -/
theorem sitemapindex_empty_loc_child_skipped :
    (fetchSitemapUrls idxEmptyLocEnv 1 "https://a").1 = ["u1"] ∧
    (fetchSitemapUrls idxEmptyLocEnv 1 "").1 = ["u2"] ∧
    (fetchSitemapUrls idxEmptyLocEnv 2 "https://root").1 = ["u1"] ∧
    (fetchSitemapUrls idxEmptyLocEnv 2 "https://root").1 ≠
      (fetchSitemapUrls idxEmptyLocEnv 1 "https://a").1 ++
        (fetchSitemapUrls idxEmptyLocEnv 1 "").1 := by
  refine ⟨rfl, rfl, rfl, ?_⟩
  decide

/-- C4 (amended): for a parsed document failing the urlset guard and
passing the sitemapindex guard, the resolver's result is the concatenation,
in entry order, of the recursive resolution of each entry whose location
the dual-form check accepts; when every entry's location is a non-empty
bare string or an object carrying a string under `#text`, that is the
concatenation over all entries in order, and a child on which fetch, parse,
or shape classification fails contributes the empty list without affecting
its siblings. -/
theorem fetchSitemapUrls_sitemapindex_concat (env : SitemapEnv) (n : Nat)
    (url : String) (doc : JsVal) (h1 : env url = .parsed doc)
    (h2 : (!truthy (getField doc "urlset") ||
      !truthy (getField (getField doc "urlset") "url")) = true)
    (h3 : (truthy (getField doc "sitemapindex") &&
      truthy (getField (getField doc "sitemapindex") "sitemap")) = true) :
    ((fetchSitemapUrls env (n + 1) url).1 =
      ((toArray (getField (getField doc "sitemapindex") "sitemap")).filterMap
        extractLoc).flatMap (fun loc => (fetchSitemapUrls env n loc).1)) ∧
    ((∀ u ∈ toArray (getField (getField doc "sitemapindex") "sitemap"), locRecognized u) →
      (fetchSitemapUrls env (n + 1) url).1 =
        ((toArray (getField (getField doc "sitemapindex") "sitemap")).map
          locValue).flatMap (fun loc => (fetchSitemapUrls env n loc).1)) ∧
    (∀ loc, nodeFails env loc → (fetchSitemapUrls env n loc).1 = []) := by
  have hbase : (fetchSitemapUrls env (n + 1) url).1 =
      ((toArray (getField (getField doc "sitemapindex") "sitemap")).filterMap
        extractLoc).flatMap (fun loc => (fetchSitemapUrls env n loc).1) := by
    rw [fetchSitemapUrls_succ, fetchSitemapTry_index _ h1 h2 h3]
    exact resolveChildren_fst _ _
  refine ⟨hbase, fun hrec => ?_, fun loc h => nodeFails_urls_nil h n⟩
  rw [hbase, filterMap_extractLoc_eq_map hrec]

/-- C4 witness: the spec's end-to-end resolver scenario — an index with two
children, one resolving to three page URLs, one failing to fetch — yields
exactly those three URLs, the concatenation of the two children's
resolutions. -/
theorem fetchSitemapUrls_sitemapindex_concat_witness :
    (fetchSitemapUrls e2eEnv 2 "https://root/sitemap.xml").1 =
      ["https://example.com/a", "https://example.com/b", "https://example.com/c"] ∧
    (fetchSitemapUrls e2eEnv 2 "https://root/sitemap.xml").1 =
      (fetchSitemapUrls e2eEnv 1 "https://child1").1 ++
        (fetchSitemapUrls e2eEnv 1 "https://child2").1 := by
  have h := fetchSitemapUrls_sitemapindex_concat e2eEnv 1 "https://root/sitemap.xml"
      e2eDocIdx rfl rfl rfl
  have hconcat := h.2.1 ?_
  · exact ⟨hconcat.trans (by decide), hconcat.trans (by decide)⟩
  · intro u hu
    have : u = JsVal.objV [("loc", .strV "https://child1")] ∨
        u = JsVal.objV [("loc", .strV "https://child2")] := by
      simpa [e2eDocIdx, toArray, getField, lookupField] using hu
    rcases this with rfl | rfl
    · exact Or.inl ⟨"https://child1", by decide, rfl⟩
    · exact Or.inl ⟨"https://child2", by decide, rfl⟩

/- Claim C6 (confirmed). -/

/-- C6: the resolver never raises to its caller — it is a total function
into a plain value (exceptions exist only inside `fetchSitemapTry` and are
caught by `fetchSitemapUrls`), and on every failure mode (HTTP non-success,
XML parse failure, or a document matching neither the urlset nor the
sitemapindex shape) it logs the error and returns the empty list. -/
theorem fetchSitemapUrls_never_raises (env : SitemapEnv) (n : Nat) (url : String) :
    (∀ st, env url = .httpError st →
      fetchSitemapUrls env (n + 1) url =
        ([], [.infoLog ("Fetching sitemap: " ++ url),
              .errorLog ("Error fetching or parsing sitemap: Failed to fetch sitemap: " ++ st)])) ∧
    (∀ m, env url = .parseError m →
      fetchSitemapUrls env (n + 1) url =
        ([], [.infoLog ("Fetching sitemap: " ++ url),
              .errorLog ("Error fetching or parsing sitemap: " ++ m)])) ∧
    (∀ doc, env url = .parsed doc →
      (!truthy (getField doc "urlset") ||
        !truthy (getField (getField doc "urlset") "url")) = true →
      (truthy (getField doc "sitemapindex") &&
        truthy (getField (getField doc "sitemapindex") "sitemap")) = false →
      fetchSitemapUrls env (n + 1) url =
        ([], [.infoLog ("Fetching sitemap: " ++ url),
              .errorLog "Error fetching or parsing sitemap: Invalid sitemap format. No <urlset> or <sitemapindex> found."])) :=
  ⟨fun _ h => fetchSitemapUrls_httpError n h,
   fun _ h => fetchSitemapUrls_parseError n h,
   fun _ h hg hi => fetchSitemapUrls_invalid n h hg hi⟩

/-- C6 witness: concrete runs of all three failure modes return the empty
list with the error logged. -/
theorem fetchSitemapUrls_never_raises_witness :
    fetchSitemapUrls httpFailEnv 1 "https://s/sitemap.xml" =
      ([], [.infoLog "Fetching sitemap: https://s/sitemap.xml",
            .errorLog "Error fetching or parsing sitemap: Failed to fetch sitemap: 500 Internal Server Error"]) ∧
    fetchSitemapUrls parseFailEnv 1 "https://s/sitemap.xml" =
      ([], [.infoLog "Fetching sitemap: https://s/sitemap.xml",
            .errorLog "Error fetching or parsing sitemap: UnexpectedEof"]) ∧
    fetchSitemapUrls badShapeEnv 1 "https://s/sitemap.xml" =
      ([], [.infoLog "Fetching sitemap: https://s/sitemap.xml",
            .errorLog "Error fetching or parsing sitemap: Invalid sitemap format. No <urlset> or <sitemapindex> found."]) :=
  ⟨(fetchSitemapUrls_never_raises httpFailEnv 0 "https://s/sitemap.xml").1
      "500 Internal Server Error" rfl,
   (fetchSitemapUrls_never_raises parseFailEnv 0 "https://s/sitemap.xml").2.1
      "UnexpectedEof" rfl,
   (fetchSitemapUrls_never_raises badShapeEnv 0 "https://s/sitemap.xml").2.2
      badShapeDoc rfl rfl rfl⟩

/- Claim C10 (confirmed). -/

/-- C10: a document whose urlset root is present (truthy) but whose `url`
member is falsy (no entries) is not treated as a valid empty urlset: when
the sitemapindex guard also fails, the resolver takes the
`Invalid sitemap format` error path — the error is logged — and returns the
empty list, rather than returning it silently as a valid result. -/
theorem urlset_without_entries_error_path (env : SitemapEnv) (n : Nat) (url : String)
    (doc : JsVal) (h1 : env url = .parsed doc)
    (h2 : truthy (getField doc "urlset") = true)
    (h3 : truthy (getField (getField doc "urlset") "url") = false)
    (h4 : (truthy (getField doc "sitemapindex") &&
      truthy (getField (getField doc "sitemapindex") "sitemap")) = false) :
    fetchSitemapUrls env (n + 1) url =
      ([], [.infoLog ("Fetching sitemap: " ++ url),
            .errorLog "Error fetching or parsing sitemap: Invalid sitemap format. No <urlset> or <sitemapindex> found."]) := by
  refine fetchSitemapUrls_invalid n h1 ?_ h4
  rw [h2, h3]
  rfl

/-- C10 witness: a document whose urlset object carries only `lastmod` (no
`url` entries) takes the invalid-format error path. -/
theorem urlset_without_entries_error_path_witness :
    fetchSitemapUrls urlsetNoEntriesEnv 1 "https://s/sitemap.xml" =
      ([], [.infoLog "Fetching sitemap: https://s/sitemap.xml",
            .errorLog "Error fetching or parsing sitemap: Invalid sitemap format. No <urlset> or <sitemapindex> found."]) :=
  urlset_without_entries_error_path urlsetNoEntriesEnv 0 "https://s/sitemap.xml"
    urlsetNoEntriesDoc rfl rfl rfl rfl

/- Claim C2 (corrected). -/

/-- C2 counterexample: on the empty string (and any all-stripped input) the
sanitizer returns early with the bare default base name — the `'.md'`
extension is NOT appended on that path (line 97 returns before line 99). -/
theorem sanitize_empty_missing_extension :
    sanitizeUrlToFileName "" = "default_page_name" ∧
    endsInMd (sanitizeUrlToFileName "") = false := by
  constructor <;> decide

/-- C2 (amended): the sanitizer is total and always returns a non-empty
name; when the processing chain leaves at least one character the result is
that name plus the `'.md'` extension, but when the chain strips everything
the fixed default base name is returned alone, without the extension. -/
theorem sanitizeUrlToFileName_total_shape (url : String) :
    sanitizeUrlToFileName url ≠ "" ∧
    (sanitizeCore url = [] → sanitizeUrlToFileName url = "default_page_name") ∧
    (sanitizeCore url ≠ [] → ∃ b, b ≠ "" ∧ sanitizeUrlToFileName url = b ++ ".md" ∧
      endsInMd (sanitizeUrlToFileName url) = true) := by
  by_cases h : sanitizeCore url = []
  · have hval : sanitizeUrlToFileName url = "default_page_name" := by
      rw [sanitizeUrlToFileName, h]
      rfl
    exact ⟨by rw [hval]; decide, fun _ => hval, fun hne => absurd h hne⟩
  · have hval : sanitizeUrlToFileName url = String.mk (sanitizeCore url) ++ ".md" := by
      rw [sanitizeUrlToFileName]
      simp [h]
    have hend : endsInMd (sanitizeUrlToFileName url) = true := by
      rw [hval, endsInMd]
      simp only [String.data_append, decide_eq_true_eq]
      rw [List.length_append]
      simp [List.drop_left]
    refine ⟨?_, fun hc => absurd hc h, fun _ =>
      ⟨String.mk (sanitizeCore url), ?_, hval, hend⟩⟩
    · rw [hval]
      simp [String.ext_iff, String.data_append]
    · simp [String.ext_iff, h]

/-- C2 witness: the theorem applied at the empty string and at a one-letter
input. -/
theorem sanitizeUrlToFileName_total_shape_witness :
    sanitizeUrlToFileName "" = "default_page_name" ∧
    sanitizeUrlToFileName "t" ≠ "" := by
  exact ⟨(sanitizeUrlToFileName_total_shape "").2.1 (by decide),
    (sanitizeUrlToFileName_total_shape "t").1⟩

/- Claim C3 (corrected). -/

/-- C3 counterexample: the third sanitizer rule does not delete the first
dot, so the claimed output for the spec's example URL is wrong. -/
theorem sanitize_first_dot_not_deleted :
    sanitizeUrlToFileName "https://example.com/docs/page-one" ≠
      "examplecom_docs_page-one.md" := by
  decide

/-- C3 (amended): the third rule `.replace('.', '_')` replaces the first
occurrence of `.` with an underscore (later dots are untouched), so the
spec's example URL sanitizes to `example_com_docs_page-one.md`. -/
theorem sanitize_first_dot_becomes_underscore :
    sanitizeUrlToFileName "https://example.com/docs/page-one" =
      "example_com_docs_page-one.md" ∧
    replaceFirstDot "a.b.c".data = "a_b.c".data := by
  constructor <;> decide

/- Claims about the page pipeline and the orchestrator. -/

/-- Renderer environment where acquiring the page session rejects. -/
def newPageFailEnv : RenderEnv := fun _ => .newPageFail "Failed to create page"

/-- Renderer environment where every page renders. -/
def renderOkEnv : RenderEnv := fun _ => .rendered "<html>ok</html>"

/-- Renderer environment where one specific URL times out on navigation. -/
def timeoutBEnv : RenderEnv := fun u =>
  if u = "https://example.com/b" then .navFail "Navigation timeout of 60000 ms exceeded"
  else .rendered "<html>ok</html>"

/-- An opaque extraction collaborator for concrete runs. -/
def constMd : String → String := fun _ => "content"

/- Claim C8 (corrected). -/

/-- C8 counterexample: when `browser.newPage()` rejects after the launch,
the exception propagates and `browser.close()` never runs — the browser is
not released on that exit path (line 65 sits outside the try/finally of
lines 66-77). -/
theorem fetchPageHtml_newpage_leak :
    (fetchPageHtml newPageFailEnv "https://example.com/a").browserClosed = false ∧
    (fetchPageHtml newPageFailEnv "https://example.com/a").result =
      .error "Failed to create page" :=
  ⟨rfl, rfl⟩

/-- C8 (amended): the render step closes the browser on every exit path of
its try block — success, navigation error, or timeout — but when acquiring
the page session itself fails after the browser is launched, the error
escapes with the browser left unclosed. -/
theorem fetchPageHtml_close_paths (env : RenderEnv) (u : String) :
    ((∀ m, env u ≠ .newPageFail m) → (fetchPageHtml env u).browserClosed = true) ∧
    (∀ m, env u = .newPageFail m →
      fetchPageHtml env u = { result := .error m, browserClosed := false }) := by
  constructor
  · intro h
    unfold fetchPageHtml
    cases he : env u with
    | newPageFail m => exact absurd he (h m)
    | navFail m => rfl
    | rendered html => rfl
  · intro m hm
    unfold fetchPageHtml
    rw [hm]

/-- C8 witness: the theorem applied to a succeeding render (browser closed)
and to a failing page acquisition (browser not closed, error escapes). -/
theorem fetchPageHtml_close_paths_witness :
    (fetchPageHtml renderOkEnv "https://example.com/a").browserClosed = true ∧
    fetchPageHtml newPageFailEnv "https://example.com/a" =
      { result := .error "Failed to create page", browserClosed := false } :=
  ⟨(fetchPageHtml_close_paths renderOkEnv "https://example.com/a").1
      (fun m h => by exact absurd h (fun hc => nomatch hc)),
   (fetchPageHtml_close_paths newPageFailEnv "https://example.com/a").2
      "Failed to create page" rfl⟩

/- Claim C9 (confirmed). -/

/-- C9: a page whose render fails inside the try block (navigation error or
timeout) makes `fetchPageHtml` return `null` (skipped, browser closed), and
the main loop's run over any iteration sequence containing that page equals
the run without it: no file is written for it, the later iterations are
still processed, and the loop reaches its completion point whenever the
remaining iterations do. -/
theorem runLoop_skips_render_failure (env : RenderEnv) (md : String → String)
    (u m : String) (h : env u = .navFail m) :
    fetchPageHtml env u = { result := .ok none, browserClosed := true } ∧
    ∀ pre post, runLoopOpt env md (pre ++ some u :: post) =
      runLoopOpt env md (pre ++ post) := by
  have hfetch : fetchPageHtml env u = { result := .ok none, browserClosed := true } := by
    unfold fetchPageHtml
    rw [h]
  refine ⟨hfetch, ?_⟩
  intro pre post
  induction pre with
  | nil => simp [runLoopOpt, hfetch]
  | cons p pre ih =>
    cases p with
    | none => simp [runLoopOpt]
    | some pu =>
      have ih' : runLoopOpt env md (pre.append (some u :: post)) =
          runLoopOpt env md (pre.append post) := ih
      simp only [List.cons_append, runLoopOpt, ih']

/-- C9 witness: with the middle of three URLs timing out, the run equals
the run over the other two URLs — two files, completion reached. -/
theorem runLoop_skips_render_failure_witness :
    runLoopOpt timeoutBEnv constMd
        [some "https://example.com/a", some "https://example.com/b",
         some "https://example.com/c"] =
      runLoopOpt timeoutBEnv constMd
        [some "https://example.com/a", some "https://example.com/c"] :=
  (runLoop_skips_render_failure timeoutBEnv constMd "https://example.com/b"
      "Navigation timeout of 60000 ms exceeded" rfl).2
    [some "https://example.com/a"] [some "https://example.com/c"]

/- Claim C7 (corrected). -/

/-- C7 counterexample: invoked with TWO arguments, `main` does not print
usage and exit — the guard only checks `Deno.args.length === 0` — it
proceeds to fetch the first argument's sitemap (network activity occurs, as
the fetch log line shows). -/
theorem main_two_args_proceeds :
    mainModel httpFailEnv renderOkEnv constMd 1 ["https://s1", "https://s2"] =
      (.noUrls,
       [.infoLog "Fetching sitemap: https://s1",
        .errorLog "Error fetching or parsing sitemap: Failed to fetch sitemap: 500 Internal Server Error"]) :=
  rfl

/-- C7 (amended): only an invocation with zero arguments prints usage and
terminates with exit status 1, before any network activity (the log trace
is empty — every fetch logs first); with one or more arguments the run
proceeds using the first argument, ignoring the rest. -/
theorem main_zero_args_usage (env : SitemapEnv) (penv : RenderEnv)
    (md : String → String) (fuel : Nat) :
    mainModel env penv md fuel [] = (.usage 1, []) ∧
    (∀ a rest, mainModel env penv md fuel (a :: rest) =
      mainModel env penv md fuel [a]) :=
  ⟨rfl, fun _ _ => rfl⟩

/- Claim C1 (code_bug). -/

/-- C1: the run loop destructures each element of `urls` — a string — as
`[index, pageUrl]` (line 125 lacks `.entries()`), so every iteration's
`pageUrl` is the SECOND CHARACTER of the discovered URL, `'t'` for any
`http(s)` URL, not the URL itself. In the spec's end-to-end scenario the
resolver discovers 3 page URLs, the loop runs 3 iterations, but the
pipeline is invoked on `"t"` each time and all three writes target the one
path `docs/t.md`. -/
theorem main_loop_second_char_bug :
    (fetchSitemapUrls e2eEnv 2 "https://root/sitemap.xml").1 =
      ["https://example.com/a", "https://example.com/b", "https://example.com/c"] ∧
    mainLoopItems
        ["https://example.com/a", "https://example.com/b", "https://example.com/c"] =
      [some "t", some "t", some "t"] ∧
    runLoopOpt renderOkEnv constMd [some "t", some "t", some "t"] =
      .ok [("docs/t.md", "content"), ("docs/t.md", "content"), ("docs/t.md", "content")] ∧
    mainModel e2eEnv renderOkEnv constMd 2 ["https://root/sitemap.xml"] =
      (.ran (.ok [("docs/t.md", "content"), ("docs/t.md", "content"),
                  ("docs/t.md", "content")]),
       [.infoLog "Fetching sitemap: https://root/sitemap.xml",
        .infoLog "Fetching sitemap: https://child1",
        .infoLog "Fetching sitemap: https://child2",
        .errorLog "Error fetching or parsing sitemap: Failed to fetch sitemap: 503"]) :=
  ⟨rfl, rfl, rfl, rfl⟩

end Sitemap2Pdf
